import Mathlib

/-!
Shallow embedding of the zap-shift parcel-delivery server (src/index.js):
an Express/MongoDB backend.  The document store is modelled as lists of
records per collection; the MongoDB driver operations used by the code
(`findOne`, `updateOne`, `insertOne`, `deleteOne`, `find().limit()`,
`ObjectId.isValid`) are modelled with their documented first-match and
modified-count semantics.  Each route handler becomes a pure function from
the store and the request to the new store and the response(s) it sends.
-/

set_option linter.unusedVariables false

/-- Models the JavaScript `Date` value: a timestamp in milliseconds. -/
structure Date where
  ms : Nat
deriving DecidableEq, Repr

/-- Models `Date.prototype.toISOString` of the external JavaScript runtime
as an injective rendering of the timestamp; the code only stores the
resulting string (`paid_at_string`, `last_log_in`) without parsing it. -/
def Date.toISOString (d : Date) : String :=
  (toString d.ms) ++ ("Z")

/-- A record of the `users` collection (spec §3: email, role, last_log_in).
`oid` models the MongoDB `_id` as its canonical hex string. -/
structure UserR where
  oid : String
  email : String
  role : String
  last_log_in : String
deriving DecidableEq, Repr

/-- A record of the `riders` collection (spec §3: status, created_at). -/
structure Rider where
  oid : String
  status : String
  created_at : Nat
deriving DecidableEq, Repr

/-- A record of the `parcels` collection (spec §3). -/
structure Parcel where
  oid : String
  created_by : String
  creation_date : Nat
  payment_status : String
deriving DecidableEq, Repr

/-- A record of the `payments` collection, exactly the `paymentDoc` built
by the `POST /payments` handler. -/
structure Payment where
  parcelId : String
  email : String
  amount : Nat
  paymentMethod : Option String
  transactionId : Option String
  paid_at_string : String
  paid_at : Date
deriving DecidableEq, Repr

/-- A record of the `tracking` collection. -/
structure TrackingLog where
  tracking_id : String
  parcel_id : String
  status : String
  message : String
  time : Date
  updated_by : String
deriving DecidableEq, Repr

/-- The document store: the five collections opened by `connectDB`. -/
structure DB where
  users : List UserR
  riders : List Rider
  parcels : List Parcel
  payments : List Payment
  tracking : List TrackingLog
deriving DecidableEq, Repr

/-- Result object of a MongoDB `updateOne` call: `matchedCount` counts the
documents matched by the filter (at most one), `modifiedCount` those
actually changed — per the MongoDB documentation, setting a field to the
value it already has leaves the document unmodified. -/
structure UpdateResult where
  matchedCount : Nat
  modifiedCount : Nat
deriving DecidableEq, Repr

/-- Models MongoDB `updateOne filter {$set ...}` on a collection: the first
document matching the filter is replaced by its update; `modifiedCount` is
0 when the update leaves that document unchanged. -/
def updateOne {α : Type} [DecidableEq α] (f : α → Bool) (u : α → α) :
    List α → List α × UpdateResult
  | [] => ([], ⟨0, 0⟩)
  | x :: xs =>
    if f x then
      (u x :: xs, ⟨1, if u x = x then 0 else 1⟩)
    else
      ((x :: (updateOne f u xs).1), (updateOne f u xs).2)

/-- Models MongoDB `deleteOne filter`: removes the first matching document
and reports the number of deleted documents. -/
def deleteOne {α : Type} (f : α → Bool) : List α → List α × Nat
  | [] => ([], 0)
  | x :: xs =>
    if f x then (xs, 1)
    else ((x :: (deleteOne f xs).1), (deleteOne f xs).2)

/-- Hexadecimal digit test, as in the driver's ObjectId validation. -/
def isHexDigit (c : Char) : Bool :=
  (('0' ≤ c && c ≤ '9') || ('a' ≤ c && c ≤ 'f') || ('A' ≤ c && c ≤ 'F'))

namespace ObjectId

/-- Models `ObjectId.isValid` of the MongoDB driver for string input:
a valid id is a 24-character hexadecimal string. -/
def isValid (s : String) : Bool :=
  (s.length == 24 && s.toList.all isHexDigit)

end ObjectId

/-- JavaScript truthiness of an optional string request field: `undefined`
and the empty string are falsy. -/
def isTruthyStr : Option String → Bool
  | none => false
  | some s => !(s == "")

/-- JavaScript truthiness of an optional numeric request field: `undefined`
and 0 are falsy. -/
def isTruthyNum : Option Nat → Bool
  | none => false
  | some n => !(n == 0)

/-- ASCII lower-casing of one character, as JavaScript `toLowerCase` acts
on the ASCII range used by email strings. -/
def charToLower (c : Char) : Char :=
  if 'A' ≤ c && c ≤ 'Z' then Char.ofNat (c.toNat + 32) else c

/-- `p` is a prefix of `l` (character lists). -/
def listStarts : List Char → List Char → Bool
  | [], _ => true
  | _ :: _, [] => false
  | a :: p, b :: l => (a == b) && listStarts p l

/-- `p` occurs as a contiguous sublist of `l`. -/
def listHasSub (p : List Char) : List Char → Bool
  | [] => p.isEmpty
  | b :: l => listStarts p (b :: l) || listHasSub p (l)

/-- Models JavaScript `String.prototype.startsWith`. -/
def strStartsWith (s pre : String) : Bool :=
  listStarts pre.toList s.toList

/-- Split a character list at every occurrence of `sep`, JavaScript
`split` semantics: the empty list yields one empty field. -/
def splitCharsAux (sep : Char) : List Char → List (List Char)
  | [] => [[]]
  | c :: cs =>
    if c == sep then [] :: splitCharsAux sep cs
    else
      match splitCharsAux sep cs with
      | [] => [[c]]
      | h :: t => (c :: h) :: t

/-- Models JavaScript `String.prototype.split` with a one-character
separator. -/
def strSplit (sep : Char) (s : String) : List String :=
  (splitCharsAux sep s.toList).map String.mk

/-- The token extracted by `authHeader.split(" ")[1]`; the out-of-range
read (`undefined`) is represented by the equally falsy empty string. -/
def bearerToken (h : String) : String :=
  (strSplit ' ' h).getD 1 ("")

/-! ### Generic lemmas about the store operations -/

theorem updateOne_of_find?_none {α : Type} [DecidableEq α]
    (f : α → Bool) (u : α → α) (l : List α)
    (h : l.find? f = none) : updateOne f u l = (l, ⟨0, 0⟩) := by
  induction l with
  | nil => rfl
  | cons x xs ih =>
    rw [List.find?_cons] at h
    by_cases hx : f x
    · simp [hx] at h
    · have hxs : xs.find? f = none := by
        simpa [hx] using h
      simp [updateOne, hx, ih hxs]

theorem updateOne_of_find?_some {α : Type} [DecidableEq α]
    (f : α → Bool) (u : α → α) (l : List α) (x : α)
    (h : l.find? f = some x) :
    ∃ l₁ l₂, l = l₁ ++ x :: l₂ ∧ (∀ y ∈ l₁, f y = false) ∧
      updateOne f u l =
        (l₁ ++ u x :: l₂, ⟨1, if u x = x then 0 else 1⟩) := by
  induction l with
  | nil => simp [List.find?] at h
  | cons a xs ih =>
    rw [List.find?_cons] at h
    by_cases ha : f a
    · simp only [ha, if_pos] at h
      refine ⟨[], xs, ?_, ?_, ?_⟩
      · simp [(Option.some.injEq _ _).mp h]
      · intro y hy; simp at hy
      · obtain rfl : a = x := (Option.some.injEq _ _).mp h
        simp [updateOne, ha]
    · have hxs : xs.find? f = some x := by simpa [ha] using h
      obtain ⟨l₁, l₂, hsplit, hnone, hupd⟩ := ih hxs
      refine ⟨a :: l₁, l₂, by simp [hsplit], ?_, ?_⟩
      · intro y hy
        rcases List.mem_cons.mp hy with hya | hyl
        · subst hya; simpa using ha
        · exact hnone y hyl
      · simp [updateOne, ha, hupd]

theorem updateOne_find?_preserved {α : Type} [DecidableEq α]
    (f : α → Bool) (u : α → α) (l : List α) (x : α)
    (h : l.find? f = some x) (hu : f (u x) = true) :
    ((updateOne f u l).1).find? f = some (u x) := by
  obtain ⟨l₁, l₂, hsplit, hnone, hupd⟩ := updateOne_of_find?_some f u l x h
  rw [hupd]
  simp only [List.find?_append]
  have h₁ : l₁.find? f = none := by
    rw [List.find?_eq_none]
    intro y hy
    simpa using hnone y hy
  simp [h₁, List.find?_cons, hu]

theorem updateOne_length {α : Type} [DecidableEq α]
    (f : α → Bool) (u : α → α) (l : List α) :
    ((updateOne f u l).1).length = l.length := by
  induction l with
  | nil => rfl
  | cons x xs ih =>
    by_cases hx : f x
    · simp [updateOne, hx]
    · simp [updateOne, hx, ih]

theorem deleteOne_of_find?_none {α : Type}
    (f : α → Bool) (l : List α)
    (h : l.find? f = none) : deleteOne f l = (l, 0) := by
  induction l with
  | nil => rfl
  | cons x xs ih =>
    rw [List.find?_cons] at h
    by_cases hx : f x
    · simp [hx] at h
    · have hxs : xs.find? f = none := by simpa [hx] using h
      simp [deleteOne, hx, ih hxs]

/-! ### Token verifier middleware (`verifyFBToken`, src/index.js lines 134–154) -/

/-- Identity claims decoded from a verified token: the subject email. -/
structure DecodedToken where
  email : String
deriving DecidableEq, Repr

/-- Outcome of the `verifyFBToken` middleware: either a rejection response
(401 or 403 with a message) or success, which attaches the decoded claims
to the request context (`req.user = decodedToken`) and calls `next()` so
the downstream handler runs. -/
inductive AuthOutcome where
  | rejected (status : Nat) (message : String)
  | ok (user : DecodedToken)
deriving DecidableEq, Repr

/-- The `verifyFBToken` middleware.  `verify` models the external
`admin.auth().verifyIdToken` call: `some claims` on success, `none` when
verification fails (expired, malformed, invalid signature). -/
def verifyFBToken (verify : String → Option DecodedToken)
    (authHeader : Option String) : AuthOutcome :=
  match authHeader with
  | none => .rejected 401 ("Unauthorized: No token provided")
  | some h =>
    if !(strStartsWith h ("Bearer ")) then
      .rejected 401 ("Unauthorized: No token provided")
    else
      let token := bearerToken h
      if token = "" then
        .rejected 401 ("Unauthorized Access")
      else
        match verify token with
        | some decodedToken => .ok decodedToken
        | none => .rejected 403 ("Forbidden: Invalid or expired token")

/-! ### `GET /users/search` (lines 164–187) -/

/-- Models the case-insensitive partial match
`{ email: { $regex: new RegExp(emailQuery, "i") } }` for metacharacter-free
query strings: the query occurs in the email ignoring case. -/
def matchesEmailCI (emailQuery : String) (email : String) : Bool :=
  listHasSub (emailQuery.toList.map charToLower)
    (email.toList.map charToLower)

/-- Response of `GET /users/search`: a status code and the JSON array sent
(empty for the 400 error response). -/
structure SearchResp where
  status : Nat
  users : List UserR
deriving DecidableEq, Repr

/-- The `GET /users/search` handler: 400 when the email query is missing,
otherwise the first 10 users matching the case-insensitive partial email
pattern (`.find(...).limit(10)`). -/
def usersSearch (db : DB) (emailQuery : Option String) : SearchResp :=
  if !(isTruthyStr emailQuery) then ⟨400, []⟩
  else
    ⟨200, (db.users.filter
      (fun u => matchesEmailCI (emailQuery.getD ("")) u.email)).take 10⟩

/-! ### `PATCH /users/:id/role` (lines 190–221) -/

/-- Response of `PATCH /users/:id/role`: status code, and the
`modifiedCount` reported by the 200 response. -/
structure RolePatchResp where
  status : Nat
  modifiedCount : Option Nat
deriving DecidableEq, Repr

/-- The `PATCH /users/:id/role` handler: 400 when the role is outside
{admin, user} (before any store access); 500 when `new ObjectId(id)`
throws (invalid id, caught by the try block); 404 when the update modifies
zero documents; otherwise 200 with the modified count. -/
def patchUserRole (db : DB) (id : String) (role : String) :
    DB × RolePatchResp :=
  if !(role == "admin" || role == "user") then
    (db, ⟨400, none⟩)
  else if !(ObjectId.isValid id) then
    (db, ⟨500, none⟩)
  else
    let res := updateOne (fun u => u.oid == id)
      (fun u => { u with role := role }) db.users
    if res.2.modifiedCount == 0 then
      ({ db with users := res.1 }, ⟨404, none⟩)
    else
      ({ db with users := res.1 }, ⟨200, some res.2.modifiedCount⟩)

/-! ### `POST /users` (lines 224–248) -/

/-- Response of `POST /users`: status code, the `inserted` flag, and the
insertedId of the 201 response (modelled as the index of the appended
record). -/
structure UsersPostResp where
  status : Nat
  inserted : Bool
  insertedId : Option Nat
deriving DecidableEq, Repr

/-- The `POST /users` handler: if a user with the body's email exists,
refresh that user's `last_log_in` to the current ISO time and answer 200
with `inserted:false`; otherwise insert the body and answer 201 with
`inserted:true` and the new record's id. -/
def postUsers (db : DB) (body : UserR) (now : Date) : DB × UsersPostResp :=
  match db.users.find? (fun u => u.email == body.email) with
  | some _ =>
    ({ db with users :=
        (updateOne (fun u => u.email == body.email)
          (fun u => { u with last_log_in := now.toISOString }) db.users).1 },
     ⟨200, false, none⟩)
  | none =>
    ({ db with users := db.users ++ [body] },
     ⟨201, true, some db.users.length⟩)

/-! ### `PATCH /riders/:id` (lines 295–312) -/

/-- The `PATCH /riders/:id` handler: updates the rider's status
unconditionally, then — exactly when the new status is "accepted" — sets
the role of the user found by the request's email to "rider".  The handler
has no try/catch and no id validation: `new ObjectId(id)` throwing on an
invalid id escapes the handler (`none`).  On success it sends the rider
update result. -/
def patchRiderStatus (db : DB) (id : String) (status : String)
    (email : String) : Option (DB × UpdateResult) :=
  if !(ObjectId.isValid id) then none
  else
    let riderRes := updateOne (fun rd => rd.oid == id)
      (fun rd => { rd with status := status }) db.riders
    let users2 :=
      if status == "accepted" then
        (updateOne (fun u => u.email == email)
          (fun u => { u with role := "rider" }) db.users).1
      else db.users
    some ({ db with riders := riderRes.1, users := users2 }, riderRes.2)

/-! ### `GET /parcels/:id` and `DELETE /parcels/:id` (lines 332–352, 366–388) -/

/-- Response of `GET /parcels/:id`: status code and the parcel sent by the
200 response. -/
structure ParcelGetResp where
  status : Nat
  parcel : Option Parcel
deriving DecidableEq, Repr

/-- The `GET /parcels/:id` handler: 400 on an invalid id (before any store
query), 404 when no parcel matches, otherwise the record. -/
def getParcelById (db : DB) (id : String) : ParcelGetResp :=
  if !(ObjectId.isValid id) then ⟨400, none⟩
  else
    match db.parcels.find? (fun p => p.oid == id) with
    | none => ⟨404, none⟩
    | some parcel => ⟨200, some parcel⟩

/-- Response of `DELETE /parcels/:id`: status code and the `deletedCount`
of the 200 response. -/
structure ParcelDeleteResp where
  status : Nat
  deletedCount : Option Nat
deriving DecidableEq, Repr

/-- The `DELETE /parcels/:id` handler: 400 on an invalid id (before any
store query), 404 when the delete removes zero documents, otherwise 200
with the deleted count. -/
def deleteParcelById (db : DB) (id : String) : DB × ParcelDeleteResp :=
  if !(ObjectId.isValid id) then (db, ⟨400, none⟩)
  else
    let res := deleteOne (fun p => p.oid == id) db.parcels
    if res.2 == 0 then
      ({ db with parcels := res.1 }, ⟨404, none⟩)
    else
      ({ db with parcels := res.1 }, ⟨200, some res.2⟩)

/-! ### `GET /payments` (lines 438–455) -/

/-- One `res...` send performed by the `GET /payments` handler: either an
error JSON with a status code, or `res.json(payments)` (status 200). -/
inductive PaySend where
  | errorJson (status : Nat) (message : String)
  | paymentsJson (payments : List Payment)
deriving DecidableEq, Repr

/-- Insert a payment into a list sorted by `paid_at` descending. -/
def insertByPaidAtDesc (p : Payment) : List Payment → List Payment
  | [] => [p]
  | q :: qs =>
    if q.paid_at.ms ≤ p.paid_at.ms then p :: q :: qs
    else q :: insertByPaidAtDesc p qs

/-- Models the driver's `sort: { paid_at: -1 }` option: latest first. -/
def sortByPaidAtDesc (l : List Payment) : List Payment :=
  l.foldr insertByPaidAtDesc []

/-- The `GET /payments` handler body, run after `verifyFBToken` succeeded
with claims email `tokenEmail`.  The email-mismatch guard sends a 403 but
has no `return`, so execution falls through and the handler still queries
and sends the payment records: the result is the list of sends in order. -/
def getPaymentsSends (db : DB) (tokenEmail : String)
    (userEmail : Option String) : List PaySend :=
  (if !(some tokenEmail == userEmail) then
      [PaySend.errorJson 403 ("Unauthorized access!")]
    else []) ++
  [PaySend.paymentsJson (sortByPaidAtDesc (db.payments.filter
    (fun p => if isTruthyStr userEmail then p.email == userEmail.getD ("")
              else true)))]

/-! ### `POST /payments` (lines 458–498) -/

/-- The body of a `POST /payments` request; absent JSON fields are `none`. -/
structure PaymentReq where
  parcelId : Option String
  email : Option String
  amount : Option Nat
  paymentMethod : Option String
  transactionId : Option String
deriving DecidableEq, Repr

/-- Response of `POST /payments`: status code and the insertedId of the
201 response (modelled as the index of the appended payment record). -/
structure PaymentsPostResp where
  status : Nat
  insertedId : Option Nat
deriving DecidableEq, Repr

/-- The `paymentDoc` built by the handler: the request fields plus the
server-generated timestamp, as a machine timestamp (`paid_at`) and as an
ISO string (`paid_at_string`). -/
def paymentDoc (pid : String) (r : PaymentReq) (now : Date) : Payment :=
  { parcelId := pid
    email := r.email.getD ("")
    amount := r.amount.getD 0
    paymentMethod := r.paymentMethod
    transactionId := r.transactionId
    paid_at_string := now.toISOString
    paid_at := now }

/-- The `POST /payments` handler: 400 when `parcelId`, `email` or `amount`
is missing (falsy); 500 when `new ObjectId(parcelId)` throws (caught by
the try block); then step 1 sets the parcel's `payment_status` to "paid"
and, when that modifies zero documents, answers 404 without reaching step
2; otherwise step 2 appends the payment record and answers 201 with its
id. -/
def postPayments (db : DB) (r : PaymentReq) (now : Date) :
    DB × PaymentsPostResp :=
  if !(isTruthyStr r.parcelId && isTruthyStr r.email &&
       isTruthyNum r.amount) then
    (db, ⟨400, none⟩)
  else
    match r.parcelId with
    | none => (db, ⟨400, none⟩)
    | some pid =>
      if !(ObjectId.isValid pid) then (db, ⟨500, none⟩)
      else
        let res := updateOne (fun p => p.oid == pid)
          (fun p => { p with payment_status := "paid" }) db.parcels
        if res.2.modifiedCount == 0 then
          ({ db with parcels := res.1 }, ⟨404, none⟩)
        else
          ({ db with
              parcels := res.1
              payments := db.payments ++ [paymentDoc pid r now] },
           ⟨201, some db.payments.length⟩)

/-! ### Claim theorems -/

/-- C9: for every malformed parcel identifier both `GET /parcels/:id` and
`DELETE /parcels/:id` respond 400 independently of the store and without
changing it; for every well-formed identifier matching no stored parcel,
`GET /parcels/:id` responds 404 and `DELETE /parcels/:id` responds 404
with the store unchanged. -/
theorem parcels_id_validation (db db2 : DB) (id : String) :
    (ObjectId.isValid id = false →
      getParcelById db id = ⟨400, none⟩ ∧
      getParcelById db id = getParcelById db2 id ∧
      deleteParcelById db id = (db, ⟨400, none⟩)) ∧
    (ObjectId.isValid id = true →
      db.parcels.find? (fun p => p.oid == id) = none →
      getParcelById db id = ⟨404, none⟩ ∧
      deleteParcelById db id = (db, ⟨404, none⟩)) := by
  constructor
  · intro h
    refine ⟨?_, ?_, ?_⟩
    · simp [getParcelById, h]
    · simp [getParcelById, h]
    · simp [deleteParcelById, h]
  · intro h hf
    have hd := deleteOne_of_find?_none (fun p => p.oid == id) db.parcels hf
    constructor
    · simp [getParcelById, h, hf]
    · simp [deleteParcelById, h, hd]

/-- Witness for C9 at a malformed id and at a well-formed absent id. -/
theorem parcels_id_validation_witness :
    getParcelById ⟨[], [], [], [], []⟩ ("zz") = ⟨400, none⟩ ∧
    getParcelById ⟨[], [], [], [], []⟩ ("bbbbbbbbbbbbbbbbbbbbbbbb") =
      ⟨404, none⟩ := by
  refine ⟨((parcels_id_validation ⟨[], [], [], [], []⟩ ⟨[], [], [], [], []⟩
      ("zz")).1 (by decide)).1, ?_⟩
  exact ((parcels_id_validation ⟨[], [], [], [], []⟩ ⟨[], [], [], [], []⟩
      ("bbbbbbbbbbbbbbbbbbbbbbbb")).2 (by decide) (by decide)).1

/-- C10: for every `GET /users/search` request with a non-empty email
query the handler answers 200 with the matching users truncated to the
first 10; the response never holds more than 10 records, and holds exactly
10 whenever more than 10 stored users match. -/
theorem usersSearch_limited_to_ten (db : DB) (q : String) (hq : q ≠ "") :
    usersSearch db (some q) =
      ⟨200, (db.users.filter (fun u => matchesEmailCI q u.email)).take 10⟩ ∧
    (usersSearch db (some q)).users.length ≤ 10 ∧
    (10 < (db.users.filter (fun u => matchesEmailCI q u.email)).length →
      (usersSearch db (some q)).users.length = 10) := by
  have hq2 : isTruthyStr (some q) = true := by
    simp [isTruthyStr, hq]
  have hmain : usersSearch db (some q) =
      ⟨200, (db.users.filter (fun u => matchesEmailCI q u.email)).take 10⟩ := by
    simp [usersSearch, hq2]
  refine ⟨hmain, ?_, ?_⟩
  · rw [hmain]
    have hlen : ((db.users.filter
        (fun u => matchesEmailCI q u.email)).take 10).length ≤ 10 := by
      rw [List.length_take]
      omega
    exact hlen
  · intro hlong
    rw [hmain]
    have hlen : ((db.users.filter
        (fun u => matchesEmailCI q u.email)).take 10).length = 10 := by
      rw [List.length_take]
      omega
    exact hlen

/-- Witness for C10: a store with 11 matching users answers exactly 10. -/
theorem usersSearch_limited_to_ten_witness :
    (usersSearch
      ⟨List.replicate 11 ⟨"", "a@b.com", "user", ""⟩,
        [], [], [], []⟩ (some "a@b")).users.length = 10 := by
  apply (usersSearch_limited_to_ten
    ⟨List.replicate 11 ⟨"", "a@b.com", "user", ""⟩,
      [], [], [], []⟩ ("a@b") (by decide)).2.2
  decide

/-- C5: the token verifier rejects with 401 when the authorization header
is absent, lacks the "Bearer " prefix, or carries an empty token — in each
case without consulting the verifier (the outcome is the same for every
verification function); when a non-empty token is present it rejects with
403 exactly when verification fails, and on success it attaches the
decoded claims and proceeds to the downstream handler (`AuthOutcome.ok`). -/
theorem verifyFBToken_spec (verify verify2 : String → Option DecodedToken)
    (s : String) (c : DecodedToken) :
    (verifyFBToken verify none =
      .rejected 401 ("Unauthorized: No token provided")) ∧
    (strStartsWith s ("Bearer ") = false →
      verifyFBToken verify (some s) =
        .rejected 401 ("Unauthorized: No token provided")) ∧
    (strStartsWith s ("Bearer ") = true →
      bearerToken s = "" →
      verifyFBToken verify (some s) = .rejected 401 ("Unauthorized Access")) ∧
    (∀ m, verifyFBToken verify (some s) = .rejected 401 m →
      verifyFBToken verify2 (some s) = .rejected 401 m) ∧
    (strStartsWith s ("Bearer ") = true →
      ∀ t, bearerToken s = t → t ≠ "" →
      (verify t = none →
        verifyFBToken verify (some s) =
          .rejected 403 ("Forbidden: Invalid or expired token")) ∧
      (verify t = some c → verifyFBToken verify (some s) = .ok c)) := by
  refine ⟨rfl, ?_, ?_, ?_, ?_⟩
  · intro h
    simp [verifyFBToken, h]
  · intro h ht
    simp [verifyFBToken, h, ht]
  · intro m hm
    by_cases h : strStartsWith s ("Bearer ")
    · by_cases ht : bearerToken s = ""
      · simp [verifyFBToken, h, ht] at hm ⊢
        exact hm
      · exfalso
        cases hv : verify (bearerToken s) with
        | none => simp [verifyFBToken, h, ht, hv] at hm
        | some d => simp [verifyFBToken, h, ht, hv] at hm
    · simp [verifyFBToken, h] at hm ⊢
      exact hm
  · intro h t ht htne
    subst ht
    constructor
    · intro hv
      simp [verifyFBToken, h, htne, hv]
    · intro hv
      simp [verifyFBToken, h, htne, hv]

/-- Witness for C5: a concrete verifier accepting exactly the token "tok";
the four behaviors at concrete headers. -/
theorem verifyFBToken_spec_witness :
    verifyFBToken (fun t => if t == "tok" then some ⟨"a@b.com"⟩ else none)
      (some "token tok") = .rejected 401 ("Unauthorized: No token provided") ∧
    verifyFBToken (fun t => if t == "tok" then some ⟨"a@b.com"⟩ else none)
      (some "Bearer ") = .rejected 401 ("Unauthorized Access") ∧
    verifyFBToken (fun t => if t == "tok" then some ⟨"a@b.com"⟩ else none)
      (some "Bearer bad") =
        .rejected 403 ("Forbidden: Invalid or expired token") ∧
    verifyFBToken (fun t => if t == "tok" then some ⟨"a@b.com"⟩ else none)
      (some "Bearer tok") = .ok ⟨"a@b.com"⟩ := by
  refine ⟨?_, ?_, ?_, ?_⟩
  · exact (verifyFBToken_spec
      (fun t => if t == "tok" then some ⟨"a@b.com"⟩ else none)
      (fun t => if t == "tok" then some ⟨"a@b.com"⟩ else none)
      ("token tok") ⟨"a@b.com"⟩).2.1 (by decide)
  · exact (verifyFBToken_spec
      (fun t => if t == "tok" then some ⟨"a@b.com"⟩ else none)
      (fun t => if t == "tok" then some ⟨"a@b.com"⟩ else none)
      ("Bearer ") ⟨"a@b.com"⟩).2.2.1 (by decide) (by decide)
  · exact (((verifyFBToken_spec
      (fun t => if t == "tok" then some ⟨"a@b.com"⟩ else none)
      (fun t => if t == "tok" then some ⟨"a@b.com"⟩ else none)
      ("Bearer bad") ⟨"a@b.com"⟩).2.2.2.2 (by decide) ("bad") (by decide)
      (by decide)).1) (by decide)
  · exact (((verifyFBToken_spec
      (fun t => if t == "tok" then some ⟨"a@b.com"⟩ else none)
      (fun t => if t == "tok" then some ⟨"a@b.com"⟩ else none)
      ("Bearer tok") ⟨"a@b.com"⟩).2.2.2.2 (by decide) ("tok") (by decide)
      (by decide)).2) (by decide)

/-- C4: when the authenticated email differs from the `email` query
parameter, the `GET /payments` handler sends the 403 response but does not
halt: it still queries the store and sends the payment records, so exactly
two sends happen, the 403 first and the payments JSON second. -/
theorem getPayments_mismatch_double_send (db : DB) (tokenEmail : String)
    (userEmail : Option String) (hne : userEmail ≠ some tokenEmail) :
    getPaymentsSends db tokenEmail userEmail =
      [PaySend.errorJson 403 ("Unauthorized access!"),
       PaySend.paymentsJson (sortByPaidAtDesc (db.payments.filter
         (fun p => if isTruthyStr userEmail then
             p.email == userEmail.getD ("") else true)))] := by
  have hbeq : (some tokenEmail == userEmail) = false := by
    rw [beq_eq_false_iff_ne]
    exact fun h => hne h.symm
  simp [getPaymentsSends, hbeq]

/-- Witness for C4: token subject "a@b.com", query email "c@d.com". -/
theorem getPayments_mismatch_double_send_witness :
    getPaymentsSends ⟨[], [], [], [], []⟩ ("a@b.com") (some "c@d.com") =
      [PaySend.errorJson 403 ("Unauthorized access!"),
       PaySend.paymentsJson []] := by
  have h := getPayments_mismatch_double_send ⟨[], [], [], [], []⟩
    ("a@b.com") (some "c@d.com") (by decide)
  simpa using h

/-- C1: a `POST /payments` request with all required fields whose
`parcelId` names an existing unpaid parcel sets that parcel's
`payment_status` to "paid", appends exactly one payment record whose
`parcelId` matches the request and whose timestamp is the server clock
both as a machine timestamp (`paid_at`) and as its ISO rendering
(`paid_at_string`), and responds 201 with the inserted record's id. -/
theorem postPayments_unpaid_success (db : DB) (r : PaymentReq) (now : Date)
    (pid : String) (p : Parcel)
    (hpid : r.parcelId = some pid)
    (hvalid : ObjectId.isValid pid = true)
    (hemail : isTruthyStr r.email = true)
    (hamount : isTruthyNum r.amount = true)
    (hfind : db.parcels.find? (fun q => q.oid == pid) = some p)
    (hunpaid : p.payment_status = "unpaid") :
    ∃ l₁ l₂, db.parcels = l₁ ++ p :: l₂ ∧
      postPayments db r now =
        ({ db with
            parcels := l₁ ++ ({ p with payment_status := "paid" } : Parcel) :: l₂
            payments := db.payments ++ [paymentDoc pid r now] },
         ⟨201, some db.payments.length⟩) ∧
      (paymentDoc pid r now).parcelId = pid ∧
      (paymentDoc pid r now).paid_at = now ∧
      (paymentDoc pid r now).paid_at_string = now.toISOString ∧
      ((postPayments db r now).1).payments.length = db.payments.length + 1 := by
  have hne : pid ≠ "" := by
    intro hcontra
    rw [hcontra] at hvalid
    exact absurd hvalid (by decide)
  have htr : isTruthyStr (some pid) = true := by
    simp [isTruthyStr, hne]
  obtain ⟨l₁, l₂, hsplit, hnone, hupd⟩ :=
    updateOne_of_find?_some (fun q => q.oid == pid)
      (fun q => { q with payment_status := "paid" }) db.parcels p hfind
  have hchanged : ({ p with payment_status := "paid" } : Parcel) ≠ p := by
    intro hcontra
    have := congrArg Parcel.payment_status hcontra
    simp [hunpaid] at this
  have hmain : postPayments db r now =
      ({ db with
          parcels := l₁ ++ ({ p with payment_status := "paid" } : Parcel) :: l₂
          payments := db.payments ++ [paymentDoc pid r now] },
       ⟨201, some db.payments.length⟩) := by
    simp only [postPayments, htr, hemail, hamount, Bool.and_self,
      Bool.not_true, Bool.false_eq_true, if_false, hpid, hvalid,
      Bool.not_false, if_true, hupd, hchanged, if_neg hchanged]
    simp
  refine ⟨l₁, l₂, hsplit, hmain, rfl, rfl, rfl, ?_⟩
  rw [hmain]
  simp

/-- Witness for C1: one unpaid parcel, a complete payment request. -/
theorem postPayments_unpaid_success_witness :
    ∃ l₁ l₂,
      (⟨[], [], [⟨"aaaaaaaaaaaaaaaaaaaaaaaa", "a@b.com", 5, "unpaid"⟩],
        [], []⟩ : DB).parcels =
        l₁ ++ (⟨"aaaaaaaaaaaaaaaaaaaaaaaa", "a@b.com", 5, "unpaid"⟩ : Parcel) :: l₂ ∧
      postPayments
        ⟨[], [], [⟨"aaaaaaaaaaaaaaaaaaaaaaaa", "a@b.com", 5, "unpaid"⟩], [], []⟩
        ⟨some "aaaaaaaaaaaaaaaaaaaaaaaa", some "a@b.com", some 7,
          some "card", some "tx1"⟩ ⟨100⟩ =
        ({ (⟨[], [], [⟨"aaaaaaaaaaaaaaaaaaaaaaaa", "a@b.com", 5, "unpaid"⟩],
            [], []⟩ : DB) with
            parcels := l₁ ++
              ({ (⟨"aaaaaaaaaaaaaaaaaaaaaaaa", "a@b.com", 5, "unpaid"⟩ : Parcel)
                with payment_status := "paid" } : Parcel) :: l₂
            payments := [] ++ [paymentDoc ("aaaaaaaaaaaaaaaaaaaaaaaa")
              ⟨some "aaaaaaaaaaaaaaaaaaaaaaaa", some "a@b.com", some 7,
                some "card", some "tx1"⟩ ⟨100⟩] },
         ⟨201, some 0⟩) ∧
      (paymentDoc ("aaaaaaaaaaaaaaaaaaaaaaaa")
          ⟨some "aaaaaaaaaaaaaaaaaaaaaaaa", some "a@b.com", some 7,
            some "card", some "tx1"⟩ ⟨100⟩).parcelId =
        "aaaaaaaaaaaaaaaaaaaaaaaa" ∧
      (paymentDoc ("aaaaaaaaaaaaaaaaaaaaaaaa")
          ⟨some "aaaaaaaaaaaaaaaaaaaaaaaa", some "a@b.com", some 7,
            some "card", some "tx1"⟩ ⟨100⟩).paid_at = ⟨100⟩ ∧
      (paymentDoc ("aaaaaaaaaaaaaaaaaaaaaaaa")
          ⟨some "aaaaaaaaaaaaaaaaaaaaaaaa", some "a@b.com", some 7,
            some "card", some "tx1"⟩ ⟨100⟩).paid_at_string =
        Date.toISOString ⟨100⟩ ∧
      ((postPayments
        ⟨[], [], [⟨"aaaaaaaaaaaaaaaaaaaaaaaa", "a@b.com", 5, "unpaid"⟩], [], []⟩
        ⟨some "aaaaaaaaaaaaaaaaaaaaaaaa", some "a@b.com", some 7,
          some "card", some "tx1"⟩ ⟨100⟩).1).payments.length = 0 + 1 :=
  postPayments_unpaid_success
    ⟨[], [], [⟨"aaaaaaaaaaaaaaaaaaaaaaaa", "a@b.com", 5, "unpaid"⟩], [], []⟩
    ⟨some "aaaaaaaaaaaaaaaaaaaaaaaa", some "a@b.com", some 7,
      some "card", some "tx1"⟩ ⟨100⟩ ("aaaaaaaaaaaaaaaaaaaaaaaa")
    ⟨"aaaaaaaaaaaaaaaaaaaaaaaa", "a@b.com", 5, "unpaid"⟩
    rfl (by decide) (by decide) (by decide) (by decide) rfl

/-- C2: a `POST /payments` request with all required fields whose
(well-formed) `parcelId` matches no stored parcel answers 404 and leaves
the whole store — the payments collection included — unchanged: step 2 is
never reached when step 1 modifies zero documents. -/
theorem postPayments_parcel_not_found (db : DB) (r : PaymentReq)
    (now : Date) (pid : String)
    (hpid : r.parcelId = some pid)
    (hvalid : ObjectId.isValid pid = true)
    (hemail : isTruthyStr r.email = true)
    (hamount : isTruthyNum r.amount = true)
    (hfind : db.parcels.find? (fun q => q.oid == pid) = none) :
    postPayments db r now = (db, ⟨404, none⟩) := by
  have hne : pid ≠ "" := by
    intro hcontra
    rw [hcontra] at hvalid
    exact absurd hvalid (by decide)
  have htr : isTruthyStr (some pid) = true := by
    simp [isTruthyStr, hne]
  have hupd := updateOne_of_find?_none (fun q => q.oid == pid)
    (fun q => { q with payment_status := "paid" }) db.parcels hfind
  simp [postPayments, htr, hemail, hamount, hpid, hvalid, hupd]

/-- Witness for C2: an empty parcel collection, a well-formed id. -/
theorem postPayments_parcel_not_found_witness :
    postPayments ⟨[], [], [], [], []⟩
      ⟨some "aaaaaaaaaaaaaaaaaaaaaaaa", some "a@b.com", some 7,
        some "card", some "tx1"⟩ ⟨100⟩ =
      (⟨[], [], [], [], []⟩, ⟨404, none⟩) :=
  postPayments_parcel_not_found ⟨[], [], [], [], []⟩
    ⟨some "aaaaaaaaaaaaaaaaaaaaaaaa", some "a@b.com", some 7,
      some "card", some "tx1"⟩ ⟨100⟩ ("aaaaaaaaaaaaaaaaaaaaaaaa")
    rfl (by decide) (by decide) (by decide) rfl

/-- C3 counterexample: a second submission against an already-paid parcel
does NOT re-update and re-insert — the handler answers 404 and the store,
the payments collection included, is unchanged, because `$set` of an
already-"paid" status modifies zero documents. -/
theorem postPayments_already_paid_rejected_cex :
    postPayments
      ⟨[], [], [⟨"aaaaaaaaaaaaaaaaaaaaaaaa", "a@b.com", 5, "paid"⟩], [], []⟩
      ⟨some "aaaaaaaaaaaaaaaaaaaaaaaa", some "a@b.com", some 7,
        some "card", some "tx1"⟩ ⟨100⟩ =
      (⟨[], [], [⟨"aaaaaaaaaaaaaaaaaaaaaaaa", "a@b.com", 5, "paid"⟩], [], []⟩,
        ⟨404, none⟩) ∧
    (postPayments
      ⟨[], [], [⟨"aaaaaaaaaaaaaaaaaaaaaaaa", "a@b.com", 5, "paid"⟩], [], []⟩
      ⟨some "aaaaaaaaaaaaaaaaaaaaaaaa", some "a@b.com", some 7,
        some "card", some "tx1"⟩ ⟨100⟩).2.status ≠ 201 ∧
    ((postPayments
      ⟨[], [], [⟨"aaaaaaaaaaaaaaaaaaaaaaaa", "a@b.com", 5, "paid"⟩], [], []⟩
      ⟨some "aaaaaaaaaaaaaaaaaaaaaaaa", some "a@b.com", some 7,
        some "card", some "tx1"⟩ ⟨100⟩).1).payments.length = 0 := by
  refine ⟨by decide, by decide, by decide⟩

/-- C3 as amended: for every parcel already in `payment_status` "paid", a
second `POST /payments` naming it is rejected — the modified-count check
treats it like a missing parcel, the handler answers 404
(`NotFoundOrAlreadyPaid`), inserts no second payment record, and leaves
the store unchanged. -/
theorem postPayments_already_paid_rejected (db : DB) (r : PaymentReq)
    (now : Date) (pid : String) (p : Parcel)
    (hpid : r.parcelId = some pid)
    (hvalid : ObjectId.isValid pid = true)
    (hemail : isTruthyStr r.email = true)
    (hamount : isTruthyNum r.amount = true)
    (hfind : db.parcels.find? (fun q => q.oid == pid) = some p)
    (hpaid : p.payment_status = "paid") :
    postPayments db r now = (db, ⟨404, none⟩) := by
  have hne : pid ≠ "" := by
    intro hcontra
    rw [hcontra] at hvalid
    exact absurd hvalid (by decide)
  have htr : isTruthyStr (some pid) = true := by
    simp [isTruthyStr, hne]
  obtain ⟨l₁, l₂, hsplit, hnone, hupd⟩ :=
    updateOne_of_find?_some (fun q => q.oid == pid)
      (fun q => { q with payment_status := "paid" }) db.parcels p hfind
  have hsame : ({ p with payment_status := "paid" } : Parcel) = p := by
    cases p
    simp_all
  rw [hsame] at hupd
  simp [postPayments, htr, hemail, hamount, hpid, hvalid, hupd, ← hsplit]

/-- Witness for the amended C3: one already-paid parcel. -/
theorem postPayments_already_paid_rejected_witness :
    postPayments
      ⟨[], [], [⟨"bbbbbbbbbbbbbbbbbbbbbbbb", "a@b.com", 5, "paid"⟩], [], []⟩
      ⟨some "bbbbbbbbbbbbbbbbbbbbbbbb", some "a@b.com", some 7,
        some "card", some "tx1"⟩ ⟨100⟩ =
      (⟨[], [], [⟨"bbbbbbbbbbbbbbbbbbbbbbbb", "a@b.com", 5, "paid"⟩], [], []⟩,
        ⟨404, none⟩) :=
  postPayments_already_paid_rejected
    ⟨[], [], [⟨"bbbbbbbbbbbbbbbbbbbbbbbb", "a@b.com", 5, "paid"⟩], [], []⟩
    ⟨some "bbbbbbbbbbbbbbbbbbbbbbbb", some "a@b.com", some 7,
      some "card", some "tx1"⟩ ⟨100⟩ ("bbbbbbbbbbbbbbbbbbbbbbbb")
    ⟨"bbbbbbbbbbbbbbbbbbbbbbbb", "a@b.com", 5, "paid"⟩
    rfl (by decide) (by decide) (by decide) rfl rfl

/-- After any `POST /users` call, some user with the body's email is in
the store: the call either found one (and kept it, refreshing only
`last_log_in`) or inserted the body itself. -/
theorem postUsers_email_present (db : DB) (body : UserR) (now : Date) :
    ∃ v, ((postUsers db body now).1).users.find?
      (fun x => x.email == body.email) = some v := by
  cases hfind : db.users.find? (fun x => x.email == body.email) with
  | some u =>
    refine ⟨{ u with last_log_in := now.toISOString }, ?_⟩
    have hpres := updateOne_find?_preserved
      (fun x => x.email == body.email)
      (fun x => { x with last_log_in := now.toISOString }) db.users u hfind
      (by simpa using List.find?_some hfind)
    simpa [postUsers, hfind] using hpres
  | none =>
    refine ⟨body, ?_⟩
    simp [postUsers, hfind, List.find?_append]

/-- C7: `POST /users` is idempotent on email.  A fresh email inserts the
record and answers 201 with `inserted:true`; an existing email never
inserts a second record — the store keeps its size, the first user with
that email gets `last_log_in` refreshed to the current ISO time, and the
response is 200 with `inserted:false`.  Consequently a repeated call with
the same email never grows the store and reports `inserted:false`. -/
theorem postUsers_idempotent (db : DB) (body body2 : UserR)
    (now now2 : Date) (u : UserR) (hsame : body2.email = body.email) :
    (db.users.find? (fun x => x.email == body.email) = none →
      postUsers db body now =
        ({ db with users := db.users ++ [body] },
         ⟨201, true, some db.users.length⟩)) ∧
    (db.users.find? (fun x => x.email == body.email) = some u →
      (postUsers db body now).2 = ⟨200, false, none⟩ ∧
      ((postUsers db body now).1).users.length = db.users.length ∧
      ((postUsers db body now).1).users.find? (fun x => x.email == body.email) =
        some { u with last_log_in := now.toISOString }) ∧
    ((postUsers (postUsers db body now).1 body2 now2).1.users.length =
        (postUsers db body now).1.users.length ∧
      (postUsers (postUsers db body now).1 body2 now2).2 =
        ⟨200, false, none⟩) := by
  refine ⟨?_, ?_, ?_⟩
  · intro hfind
    simp [postUsers, hfind]
  · intro hfind
    have hpres := updateOne_find?_preserved
      (fun x => x.email == body.email)
      (fun x => { x with last_log_in := now.toISOString }) db.users u hfind
      (by simpa using List.find?_some hfind)
    refine ⟨by simp [postUsers, hfind], ?_, ?_⟩
    · simp [postUsers, hfind, updateOne_length]
    · simpa [postUsers, hfind] using hpres
  · obtain ⟨v, hv⟩ := postUsers_email_present db body now
    generalize hg : (postUsers db body now).1 = db1 at hv ⊢
    have hv2 : db1.users.find? (fun x => x.email == body2.email) = some v := by
      rw [hsame]
      exact hv
    constructor
    · simp [postUsers, hv2, updateOne_length]
    · simp [postUsers, hv2]

/-- Witness for C7: insert a fresh user, then repeat with the same email. -/
theorem postUsers_idempotent_witness :
    postUsers ⟨[], [], [], [], []⟩ ⟨"u1", "a@b.com", "user", "t0"⟩ ⟨50⟩ =
      ({ (⟨[], [], [], [], []⟩ : DB) with
          users := [] ++ [⟨"u1", "a@b.com", "user", "t0"⟩] },
       ⟨201, true, some 0⟩) ∧
    ((postUsers (postUsers ⟨[], [], [], [], []⟩
        ⟨"u1", "a@b.com", "user", "t0"⟩ ⟨50⟩).1
        ⟨"u2", "a@b.com", "user", "t1"⟩ ⟨60⟩).1.users.length =
      (postUsers ⟨[], [], [], [], []⟩
        ⟨"u1", "a@b.com", "user", "t0"⟩ ⟨50⟩).1.users.length ∧
     (postUsers (postUsers ⟨[], [], [], [], []⟩
        ⟨"u1", "a@b.com", "user", "t0"⟩ ⟨50⟩).1
        ⟨"u2", "a@b.com", "user", "t1"⟩ ⟨60⟩).2 = ⟨200, false, none⟩) := by
  refine ⟨?_, ?_⟩
  · exact (postUsers_idempotent ⟨[], [], [], [], []⟩
      ⟨"u1", "a@b.com", "user", "t0"⟩ ⟨"u2", "a@b.com", "user", "t1"⟩
      ⟨50⟩ ⟨60⟩ ⟨"u1", "a@b.com", "user", "t0"⟩ rfl).1 rfl
  · exact (postUsers_idempotent ⟨[], [], [], [], []⟩
      ⟨"u1", "a@b.com", "user", "t0"⟩ ⟨"u2", "a@b.com", "user", "t1"⟩
      ⟨50⟩ ⟨60⟩ ⟨"u1", "a@b.com", "user", "t0"⟩ rfl).2.2

/-- C6: `PATCH /riders/:id` persists the status update unconditionally —
for every status value the first rider matching the id ends with the new
status — and touches the users collection exactly when the new status is
"accepted", in which case the first user with the supplied email gets role
"rider"; for any other status value the users collection is untouched. -/
theorem patchRiderStatus_spec (db : DB) (id status email : String)
    (rd : Rider) (u0 : UserR) (db2 : DB) (ur : UpdateResult)
    (heq : patchRiderStatus db id status email = some (db2, ur)) :
    (db.riders.find? (fun x => x.oid == id) = some rd →
      db2.riders.find? (fun x => x.oid == id) =
        some { rd with status := status }) ∧
    (status ≠ "accepted" → db2.users = db.users) ∧
    (status = "accepted" →
      db.users.find? (fun x => x.email == email) = some u0 →
      db2.users.find? (fun x => x.email == email) =
        some { u0 with role := "rider" }) := by
  by_cases hv : ObjectId.isValid id
  · simp only [patchRiderStatus, hv, Bool.not_true, Bool.false_eq_true,
      if_false, Option.some.injEq, Prod.mk.injEq] at heq
    obtain ⟨hdb2, hur⟩ := heq
    refine ⟨?_, ?_, ?_⟩
    · intro hfind
      have hpres := updateOne_find?_preserved (fun x => x.oid == id)
        (fun x => { x with status := status }) db.riders rd hfind
        (by simpa using List.find?_some hfind)
      rw [← hdb2]
      simpa using hpres
    · intro hne
      rw [← hdb2]
      simp [show (status == "accepted") = false from
        beq_eq_false_iff_ne.mpr hne]
    · intro hacc hfind
      have hpres := updateOne_find?_preserved (fun x => x.email == email)
        (fun x => { x with role := "rider" }) db.users u0 hfind
        (by simpa using List.find?_some hfind)
      rw [← hdb2]
      simpa [hacc] using hpres
  · simp [patchRiderStatus, hv] at heq

/-- Witness for C6: accepting a pending rider promotes the named user. -/
theorem patchRiderStatus_spec_witness :
    ((⟨[⟨"cccccccccccccccccccccccc", "a@b.com", "user", "t0"⟩],
        [⟨"dddddddddddddddddddddddd", "pending", 3⟩], [], [], []⟩ : DB).riders.find?
      (fun x => x.oid == "dddddddddddddddddddddddd") =
        some ⟨"dddddddddddddddddddddddd", "pending", 3⟩ →
      ({ users := [⟨"cccccccccccccccccccccccc", "a@b.com", "rider", "t0"⟩],
         riders := [⟨"dddddddddddddddddddddddd", "accepted", 3⟩],
         parcels := [], payments := [], tracking := [] } : DB).riders.find?
        (fun x => x.oid == "dddddddddddddddddddddddd") =
        some { (⟨"dddddddddddddddddddddddd", "pending", 3⟩ : Rider) with
          status := "accepted" }) ∧
    ("accepted" ≠ "accepted" →
      ({ users := [⟨"cccccccccccccccccccccccc", "a@b.com", "rider", "t0"⟩],
         riders := [⟨"dddddddddddddddddddddddd", "accepted", 3⟩],
         parcels := [], payments := [], tracking := [] } : DB).users =
      (⟨[⟨"cccccccccccccccccccccccc", "a@b.com", "user", "t0"⟩],
        [⟨"dddddddddddddddddddddddd", "pending", 3⟩], [], [], []⟩ : DB).users) ∧
    ("accepted" = "accepted" →
      (⟨[⟨"cccccccccccccccccccccccc", "a@b.com", "user", "t0"⟩],
        [⟨"dddddddddddddddddddddddd", "pending", 3⟩], [], [], []⟩ : DB).users.find?
        (fun x => x.email == "a@b.com") =
          some ⟨"cccccccccccccccccccccccc", "a@b.com", "user", "t0"⟩ →
      ({ users := [⟨"cccccccccccccccccccccccc", "a@b.com", "rider", "t0"⟩],
         riders := [⟨"dddddddddddddddddddddddd", "accepted", 3⟩],
         parcels := [], payments := [], tracking := [] } : DB).users.find?
        (fun x => x.email == "a@b.com") =
        some { (⟨"cccccccccccccccccccccccc", "a@b.com", "user", "t0"⟩ : UserR)
          with role := "rider" }) :=
  patchRiderStatus_spec
    ⟨[⟨"cccccccccccccccccccccccc", "a@b.com", "user", "t0"⟩],
      [⟨"dddddddddddddddddddddddd", "pending", 3⟩], [], [], []⟩
    ("dddddddddddddddddddddddd") ("accepted") ("a@b.com")
    ⟨"dddddddddddddddddddddddd", "pending", 3⟩
    ⟨"cccccccccccccccccccccccc", "a@b.com", "user", "t0"⟩
    { users := [⟨"cccccccccccccccccccccccc", "a@b.com", "rider", "t0"⟩],
      riders := [⟨"dddddddddddddddddddddddd", "accepted", 3⟩],
      parcels := [], payments := [], tracking := [] }
    ⟨1, 1⟩ (by decide)

/-- C8 counterexample: with a valid role ("admin") and a well-formed id
matching a stored user whose role is already "admin", the handler answers
404 even though a user record matches the id — refuting "404 if and only
if no user record matches the id". -/
theorem patchUserRole_404_despite_match_cex :
    (patchUserRole
      ⟨[⟨"eeeeeeeeeeeeeeeeeeeeeeee", "a@b.com", "admin", "t0"⟩],
        [], [], [], []⟩
      ("eeeeeeeeeeeeeeeeeeeeeeee") ("admin")).2.status = 404 ∧
    ((⟨[⟨"eeeeeeeeeeeeeeeeeeeeeeee", "a@b.com", "admin", "t0"⟩],
        [], [], [], []⟩ : DB).users.find?
      (fun x => x.oid == "eeeeeeeeeeeeeeeeeeeeeeee")).isSome = true := by
  refine ⟨by decide, by decide⟩

/-- C8 as amended: a role outside {admin, user} yields 400 without
touching the store; with a valid role and a well-formed id, the operation
responds 404 exactly when no user matches the id OR the matching user's
role already equals the requested role (in both cases the store is
unchanged), and otherwise responds 200 reporting modified count 1 with
just that user's role rewritten. -/
theorem patchUserRole_spec (db : DB) (id role : String) (u : UserR) :
    (¬(role = "admin" ∨ role = "user") →
      patchUserRole db id role = (db, ⟨400, none⟩)) ∧
    ((role = "admin" ∨ role = "user") → ObjectId.isValid id = true →
      (db.users.find? (fun x => x.oid == id) = none →
        patchUserRole db id role = (db, ⟨404, none⟩)) ∧
      (db.users.find? (fun x => x.oid == id) = some u → u.role = role →
        patchUserRole db id role = (db, ⟨404, none⟩)) ∧
      (db.users.find? (fun x => x.oid == id) = some u → u.role ≠ role →
        (patchUserRole db id role).2 = ⟨200, some 1⟩ ∧
        ∃ l₁ l₂, db.users = l₁ ++ u :: l₂ ∧
          (patchUserRole db id role).1.users =
            l₁ ++ ({ u with role := role } : UserR) :: l₂)) := by
  constructor
  · intro hbad
    have h1 : (role == "admin") = false := by
      rw [beq_eq_false_iff_ne]
      exact fun h => hbad (Or.inl h)
    have h2 : (role == "user") = false := by
      rw [beq_eq_false_iff_ne]
      exact fun h => hbad (Or.inr h)
    simp [patchUserRole, h1, h2]
  · intro hgood hvalid
    have hrole : (role == "admin" || role == "user") = true := by
      rcases hgood with h | h <;> simp [h]
    refine ⟨?_, ?_, ?_⟩
    · intro hfind
      have hupd := updateOne_of_find?_none (fun x => x.oid == id)
        (fun x => { x with role := role }) db.users hfind
      simp [patchUserRole, hrole, hvalid, hupd]
    · intro hfind hset
      obtain ⟨l₁, l₂, hsplit, hnone, hupd⟩ :=
        updateOne_of_find?_some (fun x => x.oid == id)
          (fun x => { x with role := role }) db.users u hfind
      have hsame : ({ u with role := role } : UserR) = u := by
        cases u
        simp_all
      rw [hsame] at hupd
      simp [patchUserRole, hrole, hvalid, hupd, ← hsplit]
    · intro hfind hne
      obtain ⟨l₁, l₂, hsplit, hnone, hupd⟩ :=
        updateOne_of_find?_some (fun x => x.oid == id)
          (fun x => { x with role := role }) db.users u hfind
      have hchanged : ({ u with role := role } : UserR) ≠ u := by
        intro hcontra
        have := congrArg UserR.role hcontra
        simp at this
        exact hne this.symm
      refine ⟨?_, l₁, l₂, hsplit, ?_⟩
      · simp [patchUserRole, hrole, hvalid, hupd, if_neg hchanged]
      · simp [patchUserRole, hrole, hvalid, hupd, if_neg hchanged]

/-- Witness for the amended C8: an invalid role is refused, a role change
succeeds with modified count 1, a no-op role assignment answers 404. -/
theorem patchUserRole_spec_witness :
    patchUserRole
      ⟨[⟨"ffffffffffffffffffffffff", "a@b.com", "admin", "t0"⟩],
        [], [], [], []⟩
      ("ffffffffffffffffffffffff") ("rider") =
      (⟨[⟨"ffffffffffffffffffffffff", "a@b.com", "admin", "t0"⟩],
        [], [], [], []⟩, ⟨400, none⟩) ∧
    patchUserRole
      ⟨[⟨"ffffffffffffffffffffffff", "a@b.com", "admin", "t0"⟩],
        [], [], [], []⟩
      ("ffffffffffffffffffffffff") ("admin") =
      (⟨[⟨"ffffffffffffffffffffffff", "a@b.com", "admin", "t0"⟩],
        [], [], [], []⟩, ⟨404, none⟩) ∧
    (patchUserRole
      ⟨[⟨"ffffffffffffffffffffffff", "a@b.com", "admin", "t0"⟩],
        [], [], [], []⟩
      ("ffffffffffffffffffffffff") ("user")).2 = ⟨200, some 1⟩ := by
  refine ⟨?_, ?_, ?_⟩
  · exact (patchUserRole_spec
      ⟨[⟨"ffffffffffffffffffffffff", "a@b.com", "admin", "t0"⟩],
        [], [], [], []⟩
      ("ffffffffffffffffffffffff") ("rider")
      ⟨"ffffffffffffffffffffffff", "a@b.com", "admin", "t0"⟩).1 (by decide)
  · exact ((patchUserRole_spec
      ⟨[⟨"ffffffffffffffffffffffff", "a@b.com", "admin", "t0"⟩],
        [], [], [], []⟩
      ("ffffffffffffffffffffffff") ("admin")
      ⟨"ffffffffffffffffffffffff", "a@b.com", "admin", "t0"⟩).2
      (Or.inl rfl) (by decide)).2.1 (by decide) rfl
  · exact (((patchUserRole_spec
      ⟨[⟨"ffffffffffffffffffffffff", "a@b.com", "admin", "t0"⟩],
        [], [], [], []⟩
      ("ffffffffffffffffffffffff") ("user")
      ⟨"ffffffffffffffffffffffff", "a@b.com", "admin", "t0"⟩).2
      (Or.inr rfl) (by decide)).2.2 (by decide) (by decide)).1
